import Mathlib

/-!
Verification of the GreenPulse health scoring and simulation engine.

Shallow embedding of `src/utils/model_utils.py`, `src/utils/sensor_simulator.py`
and `src/utils/data_generator.py`. Exact float arithmetic is modelled with `ℚ`
(all claimed formulas are rational); `ℝ` is used where the source calls
`np.sin` or `np.sqrt`. Randomness (`np.random.*`) is modelled as explicitly
injected noise parameters, and Python exceptions as `Option` (`none` = the
operation raised).
-/

/-! ## Embedding of `src/utils/model_utils.py` (`MossHealthPredictor`) -/

/-- The `self.labels` list from `MossHealthPredictor.__init__`. -/
def labels : List String := ["Healthy", "Needs Water", "Needs Shade", "Needs Attention"]

/-- The sklearn model object held in `self.model`: `predict` may raise
(`none`), and `predict_proba` is only present on some models
(`hasattr` check in the source); when called it may itself raise. -/
structure Model where
  predict : ℚ → ℚ → ℚ → Option ℕ
  predict_proba : Option (ℚ → ℚ → ℚ → Option (List ℚ))

/-- The `ideal_conditions` dict of `calculate_confidence`; Python raises
`KeyError` (here `none`) for a prediction outside the four classes. -/
def ideal_conditions : ℕ → Option (ℚ × ℚ × ℚ)
  | 0 => some (70, 500, 650)
  | 1 => some (50, 400, 300)
  | 2 => some (35, 1200, 500)
  | 3 => some (45, 900, 400)
  | _ => none

/-- Body of `calculate_confidence` after the `ideal_conditions[prediction]`
lookup: normalized differences, Euclidean distance, `max(50, 100 - distance * 200)`. -/
noncomputable def confidence_from_ideal (humidity light moisture ih il im : ℚ) : ℝ :=
  let h_diff : ℝ := |(humidity : ℝ) - (ih : ℝ)| / 100
  let l_diff : ℝ := |(light : ℝ) - (il : ℝ)| / 1500
  let m_diff : ℝ := |(moisture : ℝ) - (im : ℝ)| / 900
  let distance : ℝ := Real.sqrt (h_diff ^ 2 + l_diff ^ 2 + m_diff ^ 2)
  max 50 (100 - distance * 200)

/-- Embedding of `MossHealthPredictor.calculate_confidence`. -/
noncomputable def calculate_confidence (humidity light moisture : ℚ) (prediction : ℕ) :
    Option ℝ :=
  (ideal_conditions prediction).map fun ideal =>
    confidence_from_ideal humidity light moisture ideal.1 ideal.2.1 ideal.2.2

/-- Embedding of `MossHealthPredictor.calculate_health_score`. -/
def calculate_health_score (humidity light moisture : ℚ) : ℚ :=
  let humidity_score := 1 - |humidity - 70| / 50
  let light_score := 1 - |light - 500| / 700
  let moisture_score := 1 - |moisture - 650| / 450
  let humidity_score := max 0 (min 1 humidity_score)
  let light_score := max 0 (min 1 light_score)
  let moisture_score := max 0 (min 1 moisture_score)
  let health_score := (humidity_score * 0.3 + light_score * 0.3 + moisture_score * 0.4) * 10
  max 0 (min 10 health_score)

/-- Embedding of `MossHealthPredictor.predict_health`: the whole body sits in a
`try/except` that returns `("Unknown", 0.0, 0.0)` on any exception. -/
noncomputable def predict_health (m : Model) (humidity light moisture : ℚ) :
    String × ℝ × ℚ :=
  match m.predict humidity light moisture with
  | none => ("Unknown", 0.0, 0.0)
  | some prediction =>
    let conf : Option ℝ :=
      match m.predict_proba with
      | some proba =>
        match proba humidity light moisture with
        | none => none
        | some probabilities => probabilities.max?.map fun q => (q : ℝ) * 100
      | none => calculate_confidence humidity light moisture prediction
    match conf with
    | none => ("Unknown", 0.0, 0.0)
    | some confidence =>
      match labels[prediction]? with
      | none => ("Unknown", 0.0, 0.0)
      | some label => (label, confidence, calculate_health_score humidity light moisture)

/-- The training-label rule in `create_fallback_model`
(`0`=Healthy, `1`=Needs Water, `2`=Needs Shade, `3`=Needs Attention). -/
def fallback_label (h l m : ℚ) : ℕ :=
  if 60 ≤ h ∧ h ≤ 80 ∧ 300 ≤ l ∧ l ≤ 800 ∧ 500 ≤ m ∧ m ≤ 750 then 0
  else if m < 400 then 1
  else if 1000 < l ∨ h < 40 then 2
  else 3

/-- Embedding of `MossHealthPredictor.create_fallback_model`: the uniform random draws for
humidity/light/moisture become the injected `draws` list, each sample is
labelled by `fallback_label`, and fitting the `DecisionTreeClassifier` is the
abstract `train` function (sklearn is outside the repository). -/
def create_fallback_model (train : List (ℚ × ℚ × ℚ × ℕ) → Model)
    (draws : List (ℚ × ℚ × ℚ)) : Model :=
  train (draws.map fun s => (s.1, s.2.1, s.2.2, fallback_label s.1 s.2.1 s.2.2))

/-- Outcome of the model-file access in `load_model`: the pickle file is
missing (`os.path.exists` false), reading/unpickling raised, or a model was
unpickled successfully. -/
inductive LoadOutcome where
  | missing : LoadOutcome
  | raised : LoadOutcome
  | loaded : Model → LoadOutcome

/-- Embedding of `MossHealthPredictor.load_model`: missing file or any exception installs
the fallback model; success installs the unpickled model. -/
def load_model (train : List (ℚ × ℚ × ℚ × ℕ) → Model)
    (draws : List (ℚ × ℚ × ℚ)) : LoadOutcome → Model
  | LoadOutcome.missing => create_fallback_model train draws
  | LoadOutcome.raised => create_fallback_model train draws
  | LoadOutcome.loaded m => m

/-- The fields of the `sensor_data` dict read by `get_recommendations`. -/
structure SensorData where
  moisture : ℚ
  light : ℚ

/-- The Python format `f"...:.0f..."`: round to the nearest integer, ties to even.
`q.num.fdiv q.den` is the floor of `q` (the denominator is positive). -/
def format0f (q : ℚ) : ℤ :=
  let f : ℤ := q.num.fdiv q.den
  let r : ℚ := q - (f : ℚ)
  if 1 / 2 < r then f + 1
  else if r < 1 / 2 then f
  else if f % 2 = 0 then f else f + 1

/-- Embedding of `MossHealthPredictor.get_recommendations`. -/
def get_recommendations (prediction : String) (sensor_data : SensorData) : List String :=
  if prediction = "Needs Water" then
    ["Activate automatic misting system",
     "Check water reservoir levels",
     "Verify sprinkler system functionality",
     "Current moisture: " ++ toString (format0f sensor_data.moisture) ++ " (target: 600-750)"]
  else if prediction = "Needs Shade" then
    ["Adjust building ventilation",
     "Consider temporary shading solutions",
     "Check air conditioning efficiency",
     "Current light: " ++ toString (format0f sensor_data.light) ++ " lux (optimal: 300-800)"]
  else if prediction = "Needs Attention" then
    ["Schedule maintenance inspection",
     "Check all sensor calibrations",
     "Examine moss growth patterns",
     "Review environmental control systems"]
  else
    ["Continue current maintenance schedule",
     "Monitor sensor readings",
     "System operating optimally"]

/-! ## Spec-side definitions (from the wording of the specification) -/

/-- Spec wording: clamp to `[0,1]`. -/
def clamp01 (x : ℚ) : ℚ := max 0 (min 1 x)

/-- Spec wording of the health score (claim C2):
`10 * (0.3*humidity_score + 0.3*light_score + 0.4*moisture_score)`,
re-clamped to `[0,10]`. -/
def score_spec (h l m : ℚ) : ℚ :=
  max 0 (min 10 (10 * (0.3 * clamp01 (1 - |h - 70| / 50)
    + 0.3 * clamp01 (1 - |l - 500| / 700)
    + 0.4 * clamp01 (1 - |m - 650| / 450))))

/-- Spec wording: `clamp(x, lo, hi)`. -/
noncomputable def clampR (x lo hi : ℝ) : ℝ := min hi (max lo x)

/-- Spec wording of the heuristic confidence distance (claim C6): Euclidean
distance between `(h/100, l/1500, m/900)` and the normalized ideal point of the label. -/
noncomputable def dist_spec (h l m ih il im : ℚ) : ℝ :=
  Real.sqrt (((h : ℝ) / 100 - (ih : ℝ) / 100) ^ 2
    + ((l : ℝ) / 1500 - (il : ℝ) / 1500) ^ 2
    + ((m : ℝ) / 900 - (im : ℝ) / 900) ^ 2)

/-! ## Embedding of `src/utils/sensor_simulator.py` (`SensorSimulator`) -/

/-- The `self.base_values` dict from `SensorSimulator.__init__`. -/
structure BaseValues where
  humidity : ℚ
  light : ℚ
  moisture : ℚ
  co2 : ℚ
  temperature : ℚ

/-- The base value dict. -/
def base_values : BaseValues := ⟨65, 500, 600, 400, 22⟩

/-- One entry of the `location_factors` dict in `get_current_readings`. -/
structure LocationFactor where
  humidity : ℚ
  light : ℚ
  moisture : ℚ

/-- The `location_factors` dict lookup (with neutral default) from `get_current_readings`. -/
def location_factors (location : String) : LocationFactor :=
  if location = "Building A - Lobby" then ⟨0, 0.8, 0⟩
  else if location = "Building B - Facade" then ⟨0.1, 1.2, -0.1⟩
  else if location = "Highway Wall - Section 1" then ⟨-0.1, 1.5, -0.2⟩
  else if location = "University Campus - Library" then ⟨0.05, 0.6, 0.1⟩
  else if location = "Corporate HQ - Conference Room" then ⟨-0.05, 0.7, 0.05⟩
  else ⟨0, 1, 0⟩

/-- The `datetime.hour` field of an instant measured in whole minutes. -/
def hour_of (t : ℤ) : ℤ := (t.ediv 60).emod 24

/-- The daily cycle signal `np.sin(hour * np.pi / 12)`. -/
noncomputable def time_factor (hour : ℤ) : ℝ := Real.sin ((hour : ℝ) * Real.pi / 12)

/-- The random draws consumed by one `get_current_readings` call, in source
order: `normal(0,5)`, `normal(0,50)`, `normal(0,30)`, `normal(0,20)`,
`normal(0,2)`, `uniform(15,25)`. -/
structure Noise where
  humidity : ℝ
  light : ℝ
  moisture : ℝ
  co2 : ℝ
  temperature : ℝ
  uniform_15_25 : ℝ

/-- The `readings` dict returned by `get_current_readings`. -/
structure Reading where
  humidity : ℝ
  light : ℝ
  moisture : ℝ
  co2 : ℝ
  temperature : ℝ
  timestamp : ℤ
  location : String
  co2_absorption : ℝ

/-- Embedding of `SensorSimulator.get_current_readings`, with `datetime.now()` and the
`np.random` draws passed in explicitly. -/
noncomputable def get_current_readings (location : String) (current_time : ℤ)
    (noise : Noise) : Reading :=
  let tf := time_factor (hour_of current_time)
  let factor := location_factors location
  let humidity := max 20 (min 95 ((base_values.humidity : ℝ) + noise.humidity
    + tf * 10 + (factor.humidity : ℝ) * 20))
  let light := max 50 (min 1500 ((base_values.light : ℝ) + noise.light
    + tf * 300 * (factor.light : ℝ)))
  let moisture := max 200 (min 900 ((base_values.moisture : ℝ) + noise.moisture
    + (factor.moisture : ℝ) * 100))
  let co2 := max 300 (min 600 ((base_values.co2 : ℝ) + noise.co2 - tf * 50))
  let temperature := max 15 (min 35 ((base_values.temperature : ℝ)
    + noise.temperature + tf * 5))
  let moss_efficiency := min 1.0 (humidity / 100 * moisture / 700)
  ⟨humidity, light, moisture, co2, temperature, current_time, location,
    moss_efficiency * noise.uniform_15_25⟩

/-! ## Embedding of `src/utils/data_generator.py` (`HistoricalDataGenerator`) -/

/-- The random draws consumed for one historical timestamp, in source order:
`normal(0,8)`, `normal(0,100)`, `normal(0,50)`, `uniform(-20,20)`,
`normal(0,30)`, `normal(0,3)`, then the event draws `uniform(50,100)`,
`uniform(10,20)`, `uniform(1.2,1.8)`, `uniform(2,5)`. -/
structure HistNoise where
  humidity : ℝ
  light : ℝ
  moisture : ℝ
  moisture_uniform : ℝ
  co2 : ℝ
  temperature : ℝ
  watering_moisture : ℝ
  watering_humidity : ℝ
  sun_light : ℝ
  sun_temperature : ℝ

/-- One row of the DataFrame built by `generate_historical_data`. -/
structure HistPoint where
  timestamp : ℤ
  humidity : ℝ
  light : ℝ
  moisture : ℝ
  co2 : ℝ
  temperature : ℝ

/-- The loop body of `generate_historical_data` for one timestamp:
base + noise + daily cycle, scripted watering and peak-sun events, then
clamping of every channel. -/
noncomputable def hist_point (noise : HistNoise) (timestamp : ℤ) : HistPoint :=
  let hour := hour_of timestamp
  let tf := time_factor hour
  let humidity := 65 + noise.humidity + tf * 15
  let light := 500 + noise.light + tf * 400
  let moisture := 600 + noise.moisture + noise.moisture_uniform
  let co2 := 400 + noise.co2 - tf * 80
  let temperature := 22 + noise.temperature + tf * 6
  let moisture := if hour = 6 ∨ hour = 18 then moisture + noise.watering_moisture
    else moisture
  let humidity := if hour = 6 ∨ hour = 18 then humidity + noise.watering_humidity
    else humidity
  let light := if hour = 12 ∨ hour = 13 ∨ hour = 14 then light * noise.sun_light
    else light
  let temperature := if hour = 12 ∨ hour = 13 ∨ hour = 14 then
    temperature + noise.sun_temperature else temperature
  ⟨timestamp, max 20 (min 95 humidity), max 50 (min 1500 light),
    max 200 (min 900 moisture), max 300 (min 600 co2), max 15 (min 35 temperature)⟩

/-- Embedding of `pd.date_range(start, end, freq)` for a positive frequency in minutes:
timestamps `start + k*freq` for `k = 0 .. (end-start)/freq` (inclusive of both
ends when the span divides evenly), empty when `end < start`. -/
def date_range (start stop freq : ℤ) : List ℤ :=
  if start ≤ stop then
    (List.range (((stop - start) / freq).toNat + 1)).map fun k => start + freq * (k : ℤ)
  else []

/-- The `self.hours_back` value from `HistoricalDataGenerator.__init__`. -/
def hours_back : ℤ := 24

/-- Embedding of `HistoricalDataGenerator.generate_historical_data`, with `datetime.now()`
and the per-timestamp random draws passed in explicitly. -/
noncomputable def generate_historical_data (end_time : ℤ) (noise : ℤ → HistNoise) :
    List HistPoint :=
  let start_time := end_time - hours_back * 60
  (date_range start_time end_time 15).map fun t => hist_point (noise t) t

/-! ## Claims about the health scorer and training labels -/

/-- Claim C2: `calculate_health_score` equals the spec formula
(weighted sum of clamped sub-scores, times 10, re-clamped to `[0,10]`), its
value always lies in `[0,10]`, and the optimum `(70,500,650)` scores `10`. -/
theorem C2_health_score (h l m : ℚ) :
    calculate_health_score h l m = score_spec h l m ∧
    0 ≤ calculate_health_score h l m ∧
    calculate_health_score h l m ≤ 10 ∧
    calculate_health_score 70 500 650 = 10 := by
  refine ⟨?_, ?_, ?_, by simp only [calculate_health_score]; norm_num⟩
  · simp only [calculate_health_score, score_spec, clamp01]
    ring_nf
  · exact le_max_left 0 _
  · exact max_le (by norm_num) (min_le_left 10 _)

/-! ## Claims about the classifier, confidence and error containment -/

theorem abs_sub_div_sq (a b c : ℝ) : (|a - b| / c) ^ 2 = (a / c - b / c) ^ 2 := by
  rw [← sub_div, div_pow, div_pow, sq_abs]

theorem confidence_from_ideal_eq (h l m ih il im : ℚ) :
    confidence_from_ideal h l m ih il im
      = clampR (100 - dist_spec h l m ih il im * 200) 50 100 := by
  simp only [confidence_from_ideal, clampR, dist_spec]
  rw [abs_sub_div_sq, abs_sub_div_sq, abs_sub_div_sq]
  refine (min_eq_right ?_).symm
  refine max_le (by norm_num) ?_
  have hs := Real.sqrt_nonneg (((h : ℝ) / 100 - (ih : ℝ) / 100) ^ 2
    + ((l : ℝ) / 1500 - (il : ℝ) / 1500) ^ 2
    + ((m : ℝ) / 900 - (im : ℝ) / 900) ^ 2)
  linarith

theorem confidence_from_ideal_mem (h l m ih il im : ℚ) :
    50 ≤ confidence_from_ideal h l m ih il im ∧
      confidence_from_ideal h l m ih il im ≤ 100 := by
  constructor
  · exact le_max_left 50 _
  · refine max_le (by norm_num) ?_
    have hs := Real.sqrt_nonneg ((|(h : ℝ) - (ih : ℝ)| / 100) ^ 2
      + (|(l : ℝ) - (il : ℝ)| / 1500) ^ 2 + (|(m : ℝ) - (im : ℝ)| / 900) ^ 2)
    linarith

/-- Claim C6: the heuristic fallback confidence equals
`clamp(100 - distance*200, 50, 100)` where `distance` is the Euclidean
distance in the normalized space `(h/100, l/1500, m/900)` to the predicted
label ideal point, and the confidence always lies in `[50,100]`. -/
theorem C6_fallback_confidence (h l m : ℚ) :
    calculate_confidence h l m 0
      = some (clampR (100 - dist_spec h l m 70 500 650 * 200) 50 100) ∧
    calculate_confidence h l m 1
      = some (clampR (100 - dist_spec h l m 50 400 300 * 200) 50 100) ∧
    calculate_confidence h l m 2
      = some (clampR (100 - dist_spec h l m 35 1200 500 * 200) 50 100) ∧
    calculate_confidence h l m 3
      = some (clampR (100 - dist_spec h l m 45 900 400 * 200) 50 100) ∧
    ∀ ih il im : ℚ, 50 ≤ confidence_from_ideal h l m ih il im ∧
      confidence_from_ideal h l m ih il im ≤ 100 := by
  have e0 : calculate_confidence h l m 0
      = some (confidence_from_ideal h l m 70 500 650) := rfl
  have e1 : calculate_confidence h l m 1
      = some (confidence_from_ideal h l m 50 400 300) := rfl
  have e2 : calculate_confidence h l m 2
      = some (confidence_from_ideal h l m 35 1200 500) := rfl
  have e3 : calculate_confidence h l m 3
      = some (confidence_from_ideal h l m 45 900 400) := rfl
  refine ⟨?_, ?_, ?_, ?_, fun ih il im => confidence_from_ideal_mem h l m ih il im⟩
  · rw [e0, confidence_from_ideal_eq]
  · rw [e1, confidence_from_ideal_eq]
  · rw [e2, confidence_from_ideal_eq]
  · rw [e3, confidence_from_ideal_eq]

/-- Claim C1: `predict_health` never propagates an exception — every internal
error resolves to the sentinel `("Unknown", 0.0, 0.0)`, and on the non-error
path the returned label is one of the four enumerated labels. -/
theorem C1_predict_health_contained (m : Model) (humidity light moisture : ℚ) :
    predict_health m humidity light moisture = ("Unknown", 0.0, 0.0) ∨
      (predict_health m humidity light moisture).1 ∈ labels := by
  rcases hp : m.predict humidity light moisture with _ | prediction
  · left
    simp [predict_health, hp]
  · rcases hq : m.predict_proba with _ | proba
    · rcases hc : calculate_confidence humidity light moisture prediction with _ | c
      · left
        simp [predict_health, hp, hq, hc]
      · rcases hg : labels[prediction]? with _ | label
        · left
          simp [predict_health, hp, hq, hc, hg]
        · right
          simp only [predict_health, hp, hq, hc, hg]
          exact List.getElem?_mem hg
    · rcases hr : proba humidity light moisture with _ | ps
      · left
        simp [predict_health, hp, hq, hr]
      · rcases hm : ps.max? with _ | q
        · left
          simp [predict_health, hp, hq, hr, hm]
        · rcases hg : labels[prediction]? with _ | label
          · left
            simp [predict_health, hp, hq, hr, hm, hg]
          · right
            simp only [predict_health, hp, hq, hr, hm, hg, Option.map_some]
            exact List.getElem?_mem hg

/-- Claim C7: `load_model` never surfaces an error — a missing file or a
raised load exception installs the model obtained from fallback synthetic
training, and every load outcome installs some model. -/
theorem C7_load_model_total (train : List (ℚ × ℚ × ℚ × ℕ) → Model)
    (draws : List (ℚ × ℚ × ℚ)) (m : Model) :
    load_model train draws LoadOutcome.missing = create_fallback_model train draws ∧
    load_model train draws LoadOutcome.raised = create_fallback_model train draws ∧
    load_model train draws (LoadOutcome.loaded m) = m ∧
    ∀ o : LoadOutcome, load_model train draws o = create_fallback_model train draws ∨
      ∃ mo : Model, o = LoadOutcome.loaded mo ∧ load_model train draws o = mo := by
  refine ⟨rfl, rfl, rfl, ?_⟩
  intro o
  cases o with
  | missing => exact Or.inl rfl
  | raised => exact Or.inl rfl
  | loaded mo => exact Or.inr ⟨mo, rfl, rfl⟩

/-- Claim C4: the training-label rule of `create_fallback_model` is exactly
the claimed decision chain, and the three sample points classify as claimed
(`0`=Healthy, `1`=Needs Water, `2`=Needs Shade). -/
theorem C4_training_labels (h l m : ℚ) :
    (fallback_label h l m = 0 ↔
      (60 ≤ h ∧ h ≤ 80 ∧ 300 ≤ l ∧ l ≤ 800 ∧ 500 ≤ m ∧ m ≤ 750)) ∧
    (fallback_label h l m = 1 ↔
      (¬(60 ≤ h ∧ h ≤ 80 ∧ 300 ≤ l ∧ l ≤ 800 ∧ 500 ≤ m ∧ m ≤ 750) ∧ m < 400)) ∧
    (fallback_label h l m = 2 ↔
      (¬(60 ≤ h ∧ h ≤ 80 ∧ 300 ≤ l ∧ l ≤ 800 ∧ 500 ≤ m ∧ m ≤ 750) ∧
        ¬m < 400 ∧ (1000 < l ∨ h < 40))) ∧
    (fallback_label h l m = 3 ↔
      (¬(60 ≤ h ∧ h ≤ 80 ∧ 300 ≤ l ∧ l ≤ 800 ∧ 500 ≤ m ∧ m ≤ 750) ∧
        ¬m < 400 ∧ ¬(1000 < l ∨ h < 40))) ∧
    labels.get? (fallback_label 70 500 650) = some "Healthy" ∧
    labels.get? (fallback_label 70 500 300) = some "Needs Water" ∧
    labels.get? (fallback_label 30 1200 600) = some "Needs Shade" := by
  refine ⟨?_, ?_, ?_, ?_, by decide, by decide, by decide⟩ <;>
    · rw [fallback_label]
      split_ifs <;> simp_all

/-! ## Claims about recommendations -/

/-- Claim C8: `get_recommendations` is a pure lookup returning 3 to 4 advisory
strings for every label, and for "Needs Water" at moisture 350 one returned
string contains the literal value "350". -/
theorem C8_recommendations (label : String) (data : SensorData) :
    (3 ≤ (get_recommendations label data).length ∧
      (get_recommendations label data).length ≤ 4) ∧
    ∃ pre post : String,
      (pre ++ "350" ++ post) ∈ get_recommendations "Needs Water" ⟨350, 500⟩ := by
  constructor
  · unfold get_recommendations
    split_ifs <;> simp
  · refine ⟨"Current moisture: ", " (target: 600-750)", ?_⟩
    have h350 : format0f (350 : ℚ) = 350 := by norm_num [format0f]
    have hlist : get_recommendations "Needs Water" ⟨350, 500⟩ =
        ["Activate automatic misting system",
         "Check water reservoir levels",
         "Verify sprinkler system functionality",
         "Current moisture: " ++ toString (format0f ((350 : ℚ))) ++ " (target: 600-750)"] :=
      rfl
    have he : "Current moisture: " ++ "350" ++ " (target: 600-750)"
        = "Current moisture: " ++ toString (format0f ((350 : ℚ))) ++ " (target: 600-750)" := by
      rw [h350]
      rfl
    rw [hlist, he]
    exact List.Mem.tail _ (List.Mem.tail _ (List.Mem.tail _ (List.Mem.head _)))

/-- Claim C10: every label outside the three "Needs ..." branches — including
the error sentinel "Unknown" — receives exactly the three "Healthy" advisory
strings, the same output a "Healthy" classification receives. -/
theorem C10_default_recommendations (label : String) (data : SensorData)
    (h1 : label ≠ "Needs Water") (h2 : label ≠ "Needs Shade")
    (h3 : label ≠ "Needs Attention") :
    get_recommendations label data =
      ["Continue current maintenance schedule",
       "Monitor sensor readings",
       "System operating optimally"] ∧
    get_recommendations label data = get_recommendations "Healthy" data := by
  unfold get_recommendations
  rw [if_neg h1, if_neg h2, if_neg h3]
  exact ⟨rfl, rfl⟩

theorem C10_default_recommendations_witness :
    get_recommendations "Unknown" ⟨350, 500⟩ =
      ["Continue current maintenance schedule",
       "Monitor sensor readings",
       "System operating optimally"] ∧
    get_recommendations "Unknown" ⟨350, 500⟩ = get_recommendations "Healthy" ⟨350, 500⟩ :=
  C10_default_recommendations "Unknown" ⟨350, 500⟩ (by decide) (by decide) (by decide)

/-! ## Claims about the simulator and the historical generator -/

theorem clamp_mem_Icc (lo hi x : ℝ) (h : lo ≤ hi) :
    lo ≤ max lo (min hi x) ∧ max lo (min hi x) ≤ hi :=
  ⟨le_max_left lo _, max_le h (min_le_left hi x)⟩

/-- Claim C3: every Reading from `get_current_readings` (any location, any
noise) and every point from `generate_historical_data` (any noise) has each
channel clamped to its declared range after all noise/event adjustments. -/
theorem C3_clamp_bounds (location : String) (current_time : ℤ) (noise : Noise)
    (end_time : ℤ) (hnoise : ℤ → HistNoise) :
    (20 ≤ (get_current_readings location current_time noise).humidity ∧
      (get_current_readings location current_time noise).humidity ≤ 95) ∧
    (50 ≤ (get_current_readings location current_time noise).light ∧
      (get_current_readings location current_time noise).light ≤ 1500) ∧
    (200 ≤ (get_current_readings location current_time noise).moisture ∧
      (get_current_readings location current_time noise).moisture ≤ 900) ∧
    (300 ≤ (get_current_readings location current_time noise).co2 ∧
      (get_current_readings location current_time noise).co2 ≤ 600) ∧
    (15 ≤ (get_current_readings location current_time noise).temperature ∧
      (get_current_readings location current_time noise).temperature ≤ 35) ∧
    (generate_historical_data end_time hnoise).Forall (fun p =>
      (20 ≤ p.humidity ∧ p.humidity ≤ 95) ∧
      (50 ≤ p.light ∧ p.light ≤ 1500) ∧
      (200 ≤ p.moisture ∧ p.moisture ≤ 900) ∧
      (300 ≤ p.co2 ∧ p.co2 ≤ 600) ∧
      (15 ≤ p.temperature ∧ p.temperature ≤ 35)) := by
  refine ⟨clamp_mem_Icc 20 95 _ (by norm_num), clamp_mem_Icc 50 1500 _ (by norm_num),
    clamp_mem_Icc 200 900 _ (by norm_num), clamp_mem_Icc 300 600 _ (by norm_num),
    clamp_mem_Icc 15 35 _ (by norm_num), ?_⟩
  rw [List.forall_iff_forall_mem]
  intro p hp
  simp only [generate_historical_data, List.mem_map] at hp
  obtain ⟨t, _, rfl⟩ := hp
  exact ⟨clamp_mem_Icc 20 95 _ (by norm_num), clamp_mem_Icc 50 1500 _ (by norm_num),
    clamp_mem_Icc 200 900 _ (by norm_num), clamp_mem_Icc 300 600 _ (by norm_num),
    clamp_mem_Icc 15 35 _ (by norm_num)⟩

/-- Claim C5: for every instant, `generate_historical_data` yields 97 readings
whose timestamps run from `now - 24h` to `now` in exact 15-minute steps, with
length independent of the injected randomness. -/
theorem C5_historical_timestamps (end_time : ℤ) (noise : ℤ → HistNoise) :
    (generate_historical_data end_time noise).map HistPoint.timestamp
      = (List.range 97).map (fun k : ℕ => end_time - 24 * 60 + 15 * (k : ℤ)) ∧
    (generate_historical_data end_time noise).length = 97 ∧
    ((generate_historical_data end_time noise).map HistPoint.timestamp).head?
      = some (end_time - 24 * 60) ∧
    ((generate_historical_data end_time noise).map HistPoint.timestamp).getLast?
      = some end_time := by
  have hts : (generate_historical_data end_time noise).map HistPoint.timestamp
      = (List.range 97).map (fun k : ℕ => end_time - 24 * 60 + 15 * (k : ℤ)) := by
    simp only [generate_historical_data, hours_back, date_range]
    rw [if_pos (show end_time - 24 * 60 ≤ end_time by omega)]
    have e1 : end_time - (end_time - 24 * 60) = 1440 := by ring
    rw [e1]
    have e2 : (((1440 : ℤ) / 15).toNat + 1) = 97 := by decide
    rw [e2, List.map_map, List.map_map]
    exact List.map_congr_left fun k _ => rfl
  refine ⟨hts, ?_, ?_, ?_⟩
  · have hl := congrArg List.length hts
    simpa using hl
  · rw [hts, List.head?_map]
    have h0 : (List.range 97).head? = some 0 := by
      rw [List.range_succ_eq_map]
      rfl
    rw [h0, Option.map_some']
    simp
  · rw [hts, List.getLast?_map]
    have h96 : (List.range 97).getLast? = some 96 := by
      rw [List.range_succ]
      exact List.getLast?_concat _
    rw [h96, Option.map_some']
    simp only [Option.some.injEq]
    push_cast
    ring

/-- Claim C9: `get_current_readings` is deterministic in its explicit inputs —
with the same location, the same instant and the same injected random draws it
returns identical Readings, equal in every field. -/
theorem C9_sample_deterministic (location : String) (current_time : ℤ)
    (noise1 noise2 : Noise) (h : noise1 = noise2) :
    get_current_readings location current_time noise1
      = get_current_readings location current_time noise2 ∧
    (get_current_readings location current_time noise1).humidity
      = (get_current_readings location current_time noise2).humidity ∧
    (get_current_readings location current_time noise1).light
      = (get_current_readings location current_time noise2).light ∧
    (get_current_readings location current_time noise1).moisture
      = (get_current_readings location current_time noise2).moisture ∧
    (get_current_readings location current_time noise1).co2
      = (get_current_readings location current_time noise2).co2 ∧
    (get_current_readings location current_time noise1).temperature
      = (get_current_readings location current_time noise2).temperature ∧
    (get_current_readings location current_time noise1).timestamp
      = (get_current_readings location current_time noise2).timestamp ∧
    (get_current_readings location current_time noise1).location
      = (get_current_readings location current_time noise2).location ∧
    (get_current_readings location current_time noise1).co2_absorption
      = (get_current_readings location current_time noise2).co2_absorption := by
  subst h
  exact ⟨rfl, rfl, rfl, rfl, rfl, rfl, rfl, rfl, rfl⟩

theorem C9_sample_deterministic_witness :
    get_current_readings "Building A - Lobby" 720 ⟨1, 2, 3, 4, 5, 20⟩
      = get_current_readings "Building A - Lobby" 720 ⟨1, 2, 3, 4, 5, 20⟩ :=
  (C9_sample_deterministic "Building A - Lobby" 720 ⟨1, 2, 3, 4, 5, 20⟩
    ⟨1, 2, 3, 4, 5, 20⟩ rfl).1
